import Mathlib

/-!
Shallow embedding of the file `xphyle/paths.py` (module `xphyle.paths`).

Pure string manipulation (splitting, joining, normalization, home-directory
expansion) is translated directly from the CPython `posixpath` routines the
source calls.  Filesystem state and operating-system queries are modelled by
an explicit environment record `OS` that the embedded functions take and
return; Python exceptions are modelled by the `PyErr` sum type and the
`Except` monad.  Names follow the source where Lean permits.
-/

namespace XphylePaths

/-- errno.EACCES -/
def EACCES : Nat := 13
/-- errno.ENOENT -/
def ENOENT : Nat := 2
/-- errno.EISDIR -/
def EISDIR : Nat := 21
/-- errno.ENOTDIR -/
def ENOTDIR : Nat := 20
/-- errno.EEXIST -/
def EEXIST : Nat := 17

/-- os.R_OK -/
def R_OK : Nat := 4
/-- os.W_OK -/
def W_OK : Nat := 2
/-- os.X_OK -/
def X_OK : Nat := 1

/-- stat.S_IREAD = 0o400 -/
def S_IREAD : Nat := 256
/-- stat.S_IWRITE = 0o200 -/
def S_IWRITE : Nat := 128
/-- stat.S_IEXEC = 0o100 -/
def S_IEXEC : Nat := 64

/-- Python exception values raised by the embedded code.  Message strings are
kept close to the source; quote characters inside source messages are
omitted. -/
inductive PyErr : Type where
  | ioError (errnum : Nat) (msg : String) (filename : String)
  | valueError (msg : String)
  | nameError (msg : String)
  | attributeError (msg : String)
  | typeError (msg : String)
  | keyError (key : String)
  | indexError (msg : String)
  | exception (msg : String)
  deriving DecidableEq, Repr

/-- Result of running a piece of Python code: a value or a raised exception. -/
abbrev PyResult (α : Type) : Type := Except PyErr α

/-- Tests whether a Python call completed without raising. -/
def pyResultIsOk {α : Type} : PyResult α → Bool
  | .ok _ => true
  | .error _ => false

/-- STDIN = STDOUT = the single-character placeholder string for sys.stdin /
sys.stdout (xphyle/paths.py line 18). -/
def STDOUT : String := "-"

/-- STDERR = the placeholder string for sys.stderr (xphyle/paths.py line 20). -/
def STDERR : String := "_"

/-! ### POSIX path-string helpers

Translations of the CPython `posixpath` functions used by the source
(`os.path.join`, `os.path.dirname`, `os.path.basename`, `os.path.normpath`,
`os.path.expanduser`, `str.split`).  They are written over `List Char` with
plain structural recursion so that concrete runs evaluate in the kernel. -/

/-- Does the character list `s` start with the list `pre`? -/
def listStartsWith : List Char → List Char → Bool
  | _, [] => true
  | [], _ :: _ => false
  | a :: as, b :: bs => a == b && listStartsWith as bs

/-- `strStartsWith s pre` is Python `s.startswith(pre)`. -/
def strStartsWith (s pre : String) : Bool :=
  listStartsWith s.data pre.data

/-- `strEndsWith s suf` is Python `s.endswith(suf)`. -/
def strEndsWith (s suf : String) : Bool :=
  listStartsWith s.data.reverse suf.data.reverse

/-- Python `s.rstrip(sep)` for a single-character strip set. -/
def rstripChar (s : String) (c : Char) : String :=
  ⟨(s.data.reverse.dropWhile (fun ch => ch == c)).reverse⟩

/-- Python `str.split(sep)` with a one-character separator, on a character
list: every occurrence of the separator starts a new (possibly empty)
group, and the result is never empty (`"".split(sep) == [""]`). -/
def pySplitChars (sep : Char) : List Char → List (List Char)
  | [] => [[]]
  | c :: cs =>
    match pySplitChars sep cs with
    | [] => [[]]
    | g :: gs => if c == sep then [] :: g :: gs else (c :: g) :: gs

/-- Python `s.split(sep)` with a one-character separator. -/
def pySplit (s : String) (sep : Char) : List String :=
  (pySplitChars sep s.data).map (fun l => ⟨l⟩)

/-- Python `sep.join(parts)`. -/
def strJoin (sep : String) : List String → String
  | [] => ""
  | [x] => x
  | x :: y :: rest => x ++ sep ++ strJoin sep (y :: rest)

/-- Index of the last occurrence of `c` in `cs`, if any
(Python `s.rfind(c)` when the result is non-negative). -/
def lastIdxOf (cs : List Char) (c : Char) : Option Nat :=
  match cs.reverse.findIdx? (fun ch => ch == c) with
  | none => none
  | some j => some (cs.length - 1 - j)

/-- Python `s.rfind(sep) + 1` where a missing separator gives `-1 + 1 = 0`;
this is the split point used by `posixpath.dirname` and
`posixpath.basename`. -/
def rfindSlashPlusOne (s : String) : Nat :=
  match lastIdxOf s.data '/' with
  | none => 0
  | some i => i + 1

/-- `posixpath.dirname`: everything before the final slash; a non-empty head
that is not all slashes is right-stripped of slashes. -/
def pyDirname (s : String) : String :=
  let i := rfindSlashPlusOne s
  let head := s.data.take i
  if !head.isEmpty && head.any (fun ch => ch != '/') then
    ⟨(head.reverse.dropWhile (fun ch => ch == '/')).reverse⟩
  else
    ⟨head⟩

/-- `posixpath.basename`: everything after the final slash. -/
def pyBasename (s : String) : String :=
  ⟨s.data.drop (rfindSlashPlusOne s)⟩

/-- `posixpath.join a b` for the two-argument case used by the source. -/
def pyJoin (a b : String) : String :=
  if strStartsWith b "/" then b
  else if a == "" || strEndsWith a "/" then a ++ b
  else a ++ "/" ++ b

/-- `posixpath.normpath`: collapse repeated separators and up-level
references.  Faithful to the CPython algorithm, restricted to POSIX
(one or two leading slashes are preserved, three or more become one). -/
def pyNormpath (p : String) : String :=
  if p == "" then "." else
  let slashes : Nat :=
    if strStartsWith p "//" && !strStartsWith p "///" then 2
    else if strStartsWith p "/" then 1
    else 0
  let comps := pySplit p '/'
  let newComps := comps.foldl (fun acc comp =>
    if comp == "" || comp == "." then acc
    else if comp != ".." || (slashes == 0 && acc.isEmpty)
         || (!acc.isEmpty && acc.getLast? == some "..") then acc ++ [comp]
    else acc.dropLast) []
  let res := String.mk (List.replicate slashes '/') ++ strJoin "/" newComps
  if res == "" then "." else res

/-! ### The operating-system environment

The source delegates to `os`, `os.path`, `tempfile` and `shutil` for every
filesystem effect.  Those collaborators are modelled by one record: query
fields answer the predicates the source consults, and effectful primitives
(`mkdir`, `mkfifo`, open-for-write, `chmod`, `mkdtemp`, `mkstemp`,
`rmtree`) are functions from an `OS` to a new `OS`.  `rmtreeFails` is an
oracle for failures of `shutil.rmtree`, which the source does not inspect
but only propagates. -/

structure OS : Type where
  cwd : String
  home : String
  pwnam : String → Option String
  tmp : String
  pathExists : String → Bool
  isfile : String → Bool
  isdir : String → Bool
  osAccess : String → Nat → Bool
  perms : String → Nat
  contentsOf : String → String
  rmtreeFails : String → Option PyErr
  genName : Nat → String
  seed : Nat

/-- `posixpath.expanduser`: expand a leading tilde using the HOME variable
(field `home`, assumed set) or the password database (field `pwnam`;
an unknown user name returns the path unchanged). -/
def pyExpanduser (o : OS) (p : String) : String :=
  if !strStartsWith p "~" then p else
  let i : Nat :=
    match (p.data.drop 1).findIdx? (fun ch => ch == '/') with
    | none => p.data.length
    | some j => j + 1
  let userhome? : Option String :=
    if i == 1 then some o.home
    else
      match o.pwnam ⟨(p.data.drop 1).take (i - 1)⟩ with
      | none => none
      | some h => some h
  match userhome? with
  | none => p
  | some uh =>
    let r := rstripChar uh '/' ++ ⟨p.data.drop i⟩
    if r == "" then "/" else r

/-- `os.path.abspath`: make absolute (join onto the working directory) and
normalize. -/
def osPathAbspath (o : OS) (p : String) : String :=
  if strStartsWith p "/" then pyNormpath p
  else pyNormpath (pyJoin o.cwd p)

/-- `os.mkdir`: fails if the path exists or its parent does not. -/
def OS.mkdir (o : OS) (p : String) : PyResult OS :=
  if o.pathExists p then
    .error (.ioError EEXIST ("File exists: " ++ p) p)
  else if !o.pathExists (pyDirname p) then
    .error (.ioError ENOENT ("No such file or directory: " ++ p) p)
  else
    .ok { o with
      pathExists := fun q => q == p || o.pathExists q,
      isdir := fun q => q == p || o.isdir q }

/-- `os.mkfifo`: create a named-pipe node.  The model records only the
existence of the node. -/
def OS.mkfifo (o : OS) (p : String) : PyResult OS :=
  if o.pathExists p then
    .error (.ioError EEXIST ("File exists: " ++ p) p)
  else if !o.pathExists (pyDirname p) then
    .error (.ioError ENOENT ("No such file or directory: " ++ p) p)
  else
    .ok { o with pathExists := fun q => q == p || o.pathExists q }

/-- `open(p, "wt")` followed by `fh.write(c)`: create or truncate a regular
file with content `c`.  Fails when the parent directory is missing or the
path is a directory; kernel-side permission enforcement is outside the
model. -/
def OS.openWrite (o : OS) (p : String) (c : String) : PyResult OS :=
  if !o.pathExists (pyDirname p) then
    .error (.ioError ENOENT ("No such file or directory: " ++ p) p)
  else if o.isdir p then
    .error (.ioError EISDIR ("Is a directory: " ++ p) p)
  else
    .ok { o with
      pathExists := fun q => q == p || o.pathExists q,
      isfile := fun q => q == p || o.isfile q,
      contentsOf := fun q => if q == p then c else o.contentsOf q }

/-- `os.chmod`: set the permission bits of an existing path. -/
def OS.chmod (o : OS) (p : String) (flag : Nat) : PyResult OS :=
  if o.pathExists p then
    .ok { o with perms := fun q => if q == p then flag else o.perms q }
  else
    .error (.ioError ENOENT ("No such file or directory: " ++ p) p)

/-- `tempfile.mkdtemp(prefix, suffix, dir)`: create a fresh directory with a
generated name and return its path.  Name generation is an oracle
(`genName` applied to a running seed); the OS guarantees uniqueness. -/
def OS.mkdtemp (o : OS) (pre suf dir : String) : String × OS :=
  let p := pyJoin dir (pre ++ o.genName o.seed ++ suf)
  (p, { o with
    seed := o.seed + 1,
    pathExists := fun q => q == p || o.pathExists q,
    isdir := fun q => q == p || o.isdir q })

/-- `tempfile.mkstemp(prefix, suffix, dir)`: create a fresh empty file and
return `(fd, path)`. -/
def OS.mkstemp (o : OS) (pre suf dir : String) : (Nat × String) × OS :=
  let p := pyJoin dir (pre ++ o.genName o.seed ++ suf)
  ((3, p), { o with
    seed := o.seed + 1,
    pathExists := fun q => q == p || o.pathExists q,
    isfile := fun q => q == p || o.isfile q,
    contentsOf := fun q => if q == p then "" else o.contentsOf q })

/-- `shutil.rmtree p`: recursively delete `p` and everything below it.  The
failure oracle stands for the OS errors rmtree can raise; the source does
not catch them. -/
def OS.rmtree (o : OS) (p : String) : PyResult OS :=
  match o.rmtreeFails p with
  | some e => .error e
  | none =>
    .ok { o with
      pathExists := fun q =>
        if q == p || strStartsWith q (p ++ "/") then false else o.pathExists q,
      isdir := fun q =>
        if q == p || strStartsWith q (p ++ "/") then false else o.isdir q,
      isfile := fun q =>
        if q == p || strStartsWith q (p ++ "/") then false else o.isfile q }

/-! ### Module-level functions of xphyle.paths -/

/-- The ACCESS dictionary (lines 12-16), as an insertion-ordered association
list: mode character to `(os access constant, stat permission bit)`. -/
def ACCESS : List (Char × Nat × Nat) :=
  [('r', (R_OK, S_IREAD)),
   ('w', (W_OK, S_IWRITE)),
   ('a', (W_OK, S_IWRITE)),
   ('x', (X_OK, S_IEXEC))]

/-- Dictionary key lookup `ACCESS[char]` / membership `char in ACCESS`. -/
def accessBits (c : Char) : Option (Nat × Nat) :=
  (ACCESS.find? (fun ai => ai.1 == c)).map (fun ai => ai.2)

/-- `get_access` (lines 23-41): first ACCESS key contained in the mode
string wins (dictionaries iterate in insertion order); otherwise
ValueError. -/
def get_access (mode : String) : PyResult Nat :=
  match ACCESS.find? (fun ai => mode.data.contains ai.1) with
  | some ai => .ok ai.2.1
  | none => .error (.valueError (mode ++ " does not contain a valid access mode"))

/-- The character loop of `set_access` (lines 53-57): fold the permission
bits together, raising ValueError at the first unrecognized character. -/
def set_access_loop : List Char → Nat → PyResult Nat
  | [], acc => .ok acc
  | c :: cs, acc =>
    match accessBits c with
    | none => .error (.valueError ("Invalid mode character " ++ String.mk [c]))
    | some bits => set_access_loop cs (acc ||| bits.2)

/-- `set_access` (lines 43-59): validate every character of the mode string
and OR the permission bits, then chmod, then return the flag.  `os.chmod`
runs only after the whole loop has finished. -/
def set_access (o : OS) (path mode : String) : PyResult (OS × Nat) :=
  match set_access_loop mode.data 0 with
  | .error e => .error e
  | .ok flag =>
    match OS.chmod o path flag with
    | .error e => .error e
    | .ok o2 => .ok (o2, flag)

/-- The `access` argument of `check_access` may be a mode string or an
`os` access constant (the source tests `isinstance(access, str)`). -/
inductive AccessArg : Type where
  | str (s : String)
  | int (n : Nat)
  deriving DecidableEq, Repr

/-- `check_access` (lines 61-72): convert a string access argument, then
special-case the STDOUT and STDERR placeholders, else consult
`os.access`. -/
def check_access (o : OS) (path : String) (access : AccessArg) : PyResult Unit :=
  let acc? : PyResult Nat :=
    match access with
    | .str s => get_access s
    | .int n => .ok n
  match acc? with
  | .error e => .error e
  | .ok a =>
    if path == STDOUT || path == STDERR then
      if path == STDOUT && !(a == R_OK || a == W_OK) then
        .error (.ioError EACCES "STDOUT access must be r or w" path)
      else if path == STDERR && a != W_OK then
        .error (.ioError EACCES "STDERR access must be w" path)
      else .ok ()
    else if !o.osAccess path a then
      .error (.ioError EACCES (path ++ " not accessable") path)
    else .ok ()

/-- `abspath` (lines 74-89): placeholders pass through; otherwise expand the
home marker and resolve against the working directory. -/
def abspath (o : OS) (path : String) : String :=
  if path == STDOUT || path == STDERR then path
  else osPathAbspath o (pyExpanduser o path)

/-- `split_path` (lines 91-122): `(parent_dir, name, *ext)` as a list. -/
def split_path (o : OS) (path : String) (keep_seps : Bool) (resolve : Bool) :
    List String :=
  let path := if resolve then abspath o path else path
  let parent := pyDirname path
  let file_parts := pySplit (pyBasename path) '.'
  let seps : List String :=
    if file_parts.length == 1 then []
    else if keep_seps then (file_parts.drop 1).map (fun ext => "." ++ ext)
    else file_parts.drop 1
  parent :: file_parts.headI :: seps

/-- `filename` (lines 124-128). -/
def filename (o : OS) (path : String) : String :=
  (split_path o path true true).headI

/-- `resolve_path` (lines 130-152): placeholders pass through; otherwise
resolve (against `parent` when that is truthy) and require existence. -/
def resolve_path (o : OS) (path : String) (parent : Option String) :
    PyResult String :=
  if path == STDOUT || path == STDERR then .ok path
  else
    let p :=
      match parent with
      | some par => if par != "" then pyJoin (abspath o par) path else abspath o path
      | none => abspath o path
    if o.pathExists p then .ok p
    else .error (.ioError ENOENT (p ++ " does not exist") p)

/-- The type check of `check_path` (lines 171-177): a file check that lets
the placeholders pass, then a directory check. -/
def check_path_type_check (o : OS) (p : String) (ptype : Option String) :
    PyResult Unit :=
  match ptype with
  | none => .ok ()
  | some t =>
    if t == "f" && !(p == STDOUT || p == STDERR || o.isfile p) then
      .error (.ioError EISDIR (p ++ " not a file") p)
    else if t == "d" && !o.isdir p then
      .error (.ioError ENOTDIR (p ++ " not a directory") p)
    else .ok ()

/-- `check_path` (lines 154-180): resolve, then check the path type, then
check access. -/
def check_path (o : OS) (path : String) (ptype : Option String)
    (access : Option AccessArg) : PyResult String :=
  match resolve_path o path none with
  | .error e => .error e
  | .ok p =>
    match check_path_type_check o p ptype with
    | .error e => .error e
    | .ok _ =>
      match access with
      | none => .ok p
      | some a =>
        match check_access o p a with
        | .error e => .error e
        | .ok _ => .ok p

/-- `safe_check_path` (lines 218-222): `except IOError: return None`.
Only `IOError` is caught; every other exception kind propagates. -/
def safe_check_path (o : OS) (path : String) (ptype : Option String)
    (access : Option AccessArg) : PyResult (Option String) :=
  match check_path o path ptype access with
  | .ok p => .ok (some p)
  | .error (.ioError _ _ _) => .ok none
  | .error e => .error e

/-! ### TempPathDescriptor (lines 295-367)

The class holds the instance attributes assigned in `__init__`:
`path_type`, `subdir`, `name`, `prefix`, `suffix`, `mode`, `contents`,
`root` and the memo fields `_abspath` and `_relpath`; its properties are
`exists`, `absolute_path` and `relative_path`.  It defines NO attribute or
property named `path`, a fact two call sites depend on below.  `subdir`
nests another descriptor, so the model is a nested inductive; in Python the
registry and `subdir` alias mutable objects, which the model renders by
returning the updated descriptor from every method (for every execution
proved below the distinction is unobservable).  `root` stores the path of
the owning TempDir, the only field of it the class reads. -/

inductive TempPathDescriptor : Type where
  | mk (path_type : String) (subdir : Option TempPathDescriptor)
       (name : Option String) (prefix_ : String) (suffix : String)
       (mode : Option String) (contents : String) (root : Option String)
       (abspathMemo : Option String) (relpathMemo : Option String)

/-- Attribute `path_type`. -/
def TempPathDescriptor.path_type : TempPathDescriptor → String
  | .mk v _ _ _ _ _ _ _ _ _ => v

/-- Attribute `subdir`. -/
def TempPathDescriptor.subdir : TempPathDescriptor → Option TempPathDescriptor
  | .mk _ v _ _ _ _ _ _ _ _ => v

/-- Attribute `name`. -/
def TempPathDescriptor.name : TempPathDescriptor → Option String
  | .mk _ _ v _ _ _ _ _ _ _ => v

/-- Attribute `prefix`. -/
def TempPathDescriptor.prefix_ : TempPathDescriptor → String
  | .mk _ _ _ v _ _ _ _ _ _ => v

/-- Attribute `suffix`. -/
def TempPathDescriptor.suffix : TempPathDescriptor → String
  | .mk _ _ _ _ v _ _ _ _ _ => v

/-- Attribute `mode`. -/
def TempPathDescriptor.mode : TempPathDescriptor → Option String
  | .mk _ _ _ _ _ v _ _ _ _ => v

/-- Attribute `contents`. -/
def TempPathDescriptor.contents : TempPathDescriptor → String
  | .mk _ _ _ _ _ _ v _ _ _ => v

/-- Attribute `root` (path of the owning TempDir, none before attachment). -/
def TempPathDescriptor.root : TempPathDescriptor → Option String
  | .mk _ _ _ _ _ _ _ v _ _ => v

/-- Memo attribute `_abspath`. -/
def TempPathDescriptor.abspathMemo : TempPathDescriptor → Option String
  | .mk _ _ _ _ _ _ _ _ v _ => v

/-- Memo attribute `_relpath`. -/
def TempPathDescriptor.relpathMemo : TempPathDescriptor → Option String
  | .mk _ _ _ _ _ _ _ _ _ v => v

/-- Replace the `name` attribute (the back-fill in `make_path`). -/
def TempPathDescriptor.withName (d : TempPathDescriptor) (n : Option String) :
    TempPathDescriptor :=
  match d with
  | .mk pt sd _ pre suf md ct rt ap rp => .mk pt sd n pre suf md ct rt ap rp

/-- `TempPathDescriptor.__init__` (lines 302-318): contents are refused
unless `path_type == "f"`; an unset-or-empty mode is inherited from the
subdir when one is given; `root` and both memo fields start unset. -/
def TempPathDescriptor.init (name : Option String)
    (subdir : Option TempPathDescriptor) (mode : Option String)
    (suffix : String) (prefix_ : String) (contents : String)
    (path_type : String) : PyResult TempPathDescriptor :=
  if contents != "" && path_type != "f" then
    .error (.valueError "contents only valid for files")
  else
    let mode2 :=
      if (mode == none || mode == some "") && subdir.isSome then
        match subdir with
        | some sd => sd.mode
        | none => mode
      else mode
    .ok (.mk path_type subdir name prefix_ suffix mode2 contents none none none)

/-- `_init_path` (lines 336-343), fused with the property reads it feeds:
returns `(relative_path, absolute_path, updated descriptor)`.  Requires a
root; walks the subdir chain through `subdir.relative_path` (itself
memoized); a still-unset `name` would reach
`os.path.join(..., None)`, a TypeError. -/
def TempPathDescriptor.computePaths :
    TempPathDescriptor → PyResult (String × String × TempPathDescriptor)
  | .mk pt sd nm pre suf md ct none ap rp =>
    let _ := (pt, sd, nm, pre, suf, md, ct, ap, rp)
    .error (.exception "Cannot determine absolute path without root")
  | .mk pt none nm pre suf md ct (some rootPath) _ _ =>
    match nm with
    | none => .error (.typeError "join argument must be str, not NoneType")
    | some n =>
      .ok (n, pyJoin rootPath n,
        .mk pt none nm pre suf md ct (some rootPath)
          (some (pyJoin rootPath n)) (some n))
  | .mk pt (some sdesc) nm pre suf md ct (some rootPath) _ _ =>
    let sres : PyResult (String × TempPathDescriptor) :=
      match sdesc.relpathMemo with
      | some r => .ok (r, sdesc)
      | none =>
        match TempPathDescriptor.computePaths sdesc with
        | .error e => .error e
        | .ok (r, _, sd2) => .ok (r, sd2)
    match sres with
    | .error e => .error e
    | .ok (srel, sdesc2) =>
      match nm with
      | none => .error (.typeError "join argument must be str, not NoneType")
      | some n =>
        let rel := pyJoin srel n
        let ab := pyJoin rootPath rel
        .ok (rel, ab,
          .mk pt (some sdesc2) nm pre suf md ct (some rootPath)
            (some ab) (some rel))

/-- Property `relative_path` (lines 330-334): memo field or `_init_path`. -/
def TempPathDescriptor.relative_path (d : TempPathDescriptor) :
    PyResult (String × TempPathDescriptor) :=
  match d.relpathMemo with
  | some r => .ok (r, d)
  | none =>
    match d.computePaths with
    | .error e => .error e
    | .ok (r, _, d2) => .ok (r, d2)

/-- Property `absolute_path` (lines 324-328): memo field or `_init_path`. -/
def TempPathDescriptor.absolute_path (d : TempPathDescriptor) :
    PyResult (String × TempPathDescriptor) :=
  match d.abspathMemo with
  | some a => .ok (a, d)
  | none =>
    match d.computePaths with
    | .error e => .error e
    | .ok (_, a, d2) => .ok (a, d2)

/-- `set_root` (lines 345-348): record the owning TempDir and inherit its
mode when the descriptor mode `is None` (an empty string is kept). -/
def TempPathDescriptor.set_root (d : TempPathDescriptor)
    (tdPath tdMode : String) : TempPathDescriptor :=
  match d with
  | .mk pt sd nm pre suf md ct _ ap rp =>
    .mk pt sd nm pre suf (if md == none then some tdMode else md) ct
      (some tdPath) ap rp

/-- `TempPathDescriptor.set_access` (lines 350-356).  After a truthy `mode`
argument overrides the stored mode, the source evaluates
`self.path is None or self.mode is None`; the class defines no attribute
or property named `path` (see the type-level note above), so the attribute
lookup raises AttributeError on every call, before `set_access` of the
module is ever reached. -/
def TempPathDescriptor.set_access (o : OS) (d : TempPathDescriptor)
    (mode : Option String) : PyResult (OS × TempPathDescriptor) :=
  let _d2 :=
    match mode with
    | some m =>
      if m != "" then
        match d with
        | .mk pt sd nm pre suf _ ct rt ap rp =>
          TempPathDescriptor.mk pt sd nm pre suf (some m) ct rt ap rp
      else d
    | none => d
  let _ := o
  .error (.attributeError "TempPathDescriptor object has no attribute path")

/-- `create` (lines 358-367): directories via `os.mkdir`; otherwise a fifo
node first when `path_type == "fifo"`, then an open-and-write whenever
there are contents or the type is not fifo. -/
def TempPathDescriptor.create (o : OS) (d : TempPathDescriptor) :
    PyResult (OS × TempPathDescriptor) :=
  if d.path_type == "d" || d.path_type == "dir" then
    match d.absolute_path with
    | .error e => .error e
    | .ok (a, d2) =>
      match o.mkdir a with
      | .error e => .error e
      | .ok o2 => .ok (o2, d2)
  else
    let step1 : PyResult (OS × TempPathDescriptor) :=
      if d.path_type == "fifo" then
        match d.absolute_path with
        | .error e => .error e
        | .ok (a, d2) =>
          match o.mkfifo a with
          | .error e => .error e
          | .ok o2 => .ok (o2, d2)
      else .ok (o, d)
    match step1 with
    | .error e => .error e
    | .ok (o2, d2) =>
      if d2.contents != "" || d2.path_type != "fifo" then
        match d2.absolute_path with
        | .error e => .error e
        | .ok (a, d3) =>
          match o2.openWrite a d3.contents with
          | .error e => .error e
          | .ok o3 => .ok (o3, d3)
      else .ok (o2, d2)

/-! ### TempDir (lines 369-446) -/

/-- The TempDir instance attributes: `path`, `mode` and the `paths`
registry (a dict from path strings to descriptors). -/
structure TempDir : Type where
  path : String
  mode : String
  paths : List (String × TempPathDescriptor)

/-- Dict assignment `d[k] = v`: replace an existing key or append. -/
def dictSet (l : List (String × TempPathDescriptor)) (k : String)
    (v : TempPathDescriptor) : List (String × TempPathDescriptor) :=
  if l.any (fun kv => kv.1 == k) then
    l.map (fun kv => if kv.1 == k then (k, v) else kv)
  else l ++ [(k, v)]

/-- `TempDir.__getitem__` (lines 398-399): dict lookup, KeyError when
absent. -/
def TempDir.getitem (td : TempDir) (k : String) : PyResult TempPathDescriptor :=
  match td.paths.find? (fun kv => kv.1 == k) with
  | some kv => .ok kv.2
  | none => .error (.keyError k)

/-- `TempDir.__contains__` (lines 401-402). -/
def TempDir.contains_ (td : TempDir) (k : String) : Bool :=
  td.paths.any (fun kv => kv.1 == k)

/-- `TempDir.__init__` (lines 384-390).  The source creates the root with
`tempfile.mkdtemp`, stores `abspath` of it, stores `mode` and an empty
registry, and then executes `if paths:`.  The name `paths` is neither a
parameter (the parameter is `path_descriptors`), nor a local variable, nor
a module-level global of `xphyle.paths`, so that line raises NameError on
every construction, before `make_paths` and before
`set_access(self.path, mode)` can run. -/
def TempDir.init (o : OS) (mode : String)
    (path_descriptors : Option (List TempPathDescriptor)) :
    PyResult (OS × TempDir) :=
  let md := o.mkdtemp "" "" o.tmp
  let selfTd : TempDir := { path := abspath md.2 md.1, mode := mode, paths := [] }
  let _ := (selfTd, path_descriptors)
  .error (.nameError "name paths is not defined")

/-- `TempDir.close` (lines 404-407): `shutil.rmtree(self.path)`, nothing
caught. -/
def TempDir.close (o : OS) (td : TempDir) : PyResult OS :=
  o.rmtree td.path

/-- `TempDir.__exit__` (lines 395-396): calls `close` whatever the
exception information is. -/
def TempDir.exit_ (o : OS) (td : TempDir)
    (excType excValue excTraceback : Option String) : PyResult OS :=
  let _ := (excType, excValue, excTraceback)
  TempDir.close o td

/-- The registration tail of `make_path` (lines 430-433):
`self.paths[desc.absolute_path] = desc; self.paths[desc.relative_path] =
desc; return desc.absolute_path` (three property reads, memoized by
`create`). -/
def TempDir.registerPath (o : OS) (td : TempDir) (d : TempPathDescriptor) :
    PyResult (OS × TempDir × TempPathDescriptor × String) :=
  match d.absolute_path with
  | .error e => .error e
  | .ok (a, d2) =>
    match d2.relative_path with
    | .error e => .error e
    | .ok (r, d3) =>
      .ok (o, { td with paths := dictSet (dictSet td.paths a d3) r d3 }, d3, a)

/-- `TempDir.make_path` (lines 409-433) for a caller-supplied descriptor
(the `if not desc` branch would first build one from keyword arguments).
`parent = desc.subdir.path if desc.subdir else self.path`: when a subdir
is set this reads attribute `path` of a TempPathDescriptor, which does not
exist, so it raises AttributeError.  When the name is missing, a directory
name comes from `tempfile.mkdtemp(...)[1]` — but `mkdtemp` returns a
string, so `[1]` is its second character (IndexError when shorter) — and a
file name from `tempfile.mkstemp(...)[1]`, the path component of the
returned pair. -/
def TempDir.make_path (o : OS) (td : TempDir) (desc : TempPathDescriptor)
    (apply_permissions : Bool) :
    PyResult (OS × TempDir × TempPathDescriptor × String) :=
  match desc.subdir with
  | some _ =>
    .error (.attributeError "TempPathDescriptor object has no attribute path")
  | none =>
    let parent := td.path
    let named : Bool :=
      match desc.name with
      | some n => n != ""
      | none => false
    let step : PyResult (OS × TempPathDescriptor) :=
      if named then
        let _path := match desc.name with | some n => pyJoin parent n | none => ""
        .ok (o, desc)
      else if desc.path_type == "d" || desc.path_type == "dir" then
        let r := o.mkdtemp desc.prefix_ desc.suffix parent
        match r.1.data.drop 1 with
        | [] => .error (.indexError "string index out of range")
        | ch :: _ =>
          let path := String.mk [ch]
          .ok (r.2, desc.withName (some (pyBasename path)))
      else
        let r := o.mkstemp desc.prefix_ desc.suffix parent
        let path := r.1.2
        .ok (r.2, desc.withName (some (pyBasename path)))
    match step with
    | .error e => .error e
    | .ok (o2, d1) =>
      let d2 := d1.set_root td.path td.mode
      match d2.create o2 with
      | .error e => .error e
      | .ok (o3, d3) =>
        if apply_permissions then
          match d3.set_access o3 none with
          | .error e => .error e
          | .ok (o4, d4) => TempDir.registerPath o4 td d4
        else TempDir.registerPath o3 td d3

/-- The first pass of `make_paths` (lines 437-439): materialize every
descriptor in order with `apply_permissions=False`, collecting the
returned paths (and, in the model, the updated descriptors the second
pass will see). -/
def TempDir.make_paths_pass1 (o : OS) (td : TempDir) :
    List TempPathDescriptor →
    PyResult (OS × TempDir × List TempPathDescriptor × List String)
  | [] => .ok (o, td, [], [])
  | d :: rest =>
    match TempDir.make_path o td d false with
    | .error e => .error e
    | .ok (o2, td2, d2, p) =>
      match TempDir.make_paths_pass1 o2 td2 rest with
      | .error e => .error e
      | .ok (o3, td3, ds, ps) => .ok (o3, td3, d2 :: ds, p :: ps)

/-- The second pass of `make_paths` (lines 441-442): `desc.set_access()`
for every descriptor in the same order. -/
def TempDir.make_paths_pass2 (o : OS) :
    List TempPathDescriptor → PyResult OS
  | [] => .ok o
  | d :: rest =>
    match d.set_access o none with
    | .error e => .error e
    | .ok (o2, _) => TempDir.make_paths_pass2 o2 rest

/-- `TempDir.make_paths` (lines 435-443): create all files and directories
without permissions, then apply permissions, then return the paths. -/
def TempDir.make_paths (o : OS) (td : TempDir)
    (path_descriptors : List TempPathDescriptor) :
    PyResult (OS × TempDir × List String) :=
  match TempDir.make_paths_pass1 o td path_descriptors with
  | .error e => .error e
  | .ok (o2, td2, ds, ps) =>
    match TempDir.make_paths_pass2 o2 ds with
    | .error e => .error e
    | .ok o3 => .ok (o3, td2, ps)

/-! ### Concrete environments used to instantiate theorems -/

/-- A small concrete host: working directory `/current/dir`, an existing
regular file `/current/dir/x`, an existing directory `/tmp/root`, and an
`os.access` that grants everything except execute. -/
def sampleOS : OS := {
  cwd := "/current/dir", home := "/home/user", pwnam := fun _ => none,
  tmp := "/tmp",
  pathExists := fun p =>
    p == "/" || p == "/tmp" || p == "/tmp/root" || p == "/current/dir/x",
  isfile := fun p => p == "/current/dir/x",
  isdir := fun p => p == "/" || p == "/tmp" || p == "/tmp/root",
  osAccess := fun _ a => a != X_OK,
  perms := fun _ => 0,
  contentsOf := fun _ => "",
  rmtreeFails := fun _ => none,
  genName := fun _ => "gen",
  seed := 0 }

/-- The same host, but `shutil.rmtree` fails on `/tmp/root` with EACCES. -/
def sampleOSFail : OS :=
  { sampleOS with
    rmtreeFails := fun p =>
      if p == "/tmp/root" then some (.ioError EACCES "busy" "/tmp/root")
      else none }

/-- A TempDir whose root is the existing directory `/tmp/root`. -/
def tdRoot : TempDir := { path := "/tmp/root", mode := "rwx", paths := [] }

/-- Directory descriptor `D`: name `d`, mode `r`, no parent. -/
def descD : TempPathDescriptor :=
  .mk "d" none (some "d") "" "" (some "r") "" none none none

/-- File descriptor `F`: name `f`, contents `hello`, parent `descD`. -/
def descF : TempPathDescriptor :=
  .mk "f" (some descD) (some "f") "" "" none "hello" none none none

/-- Root-level file descriptor named `a.txt` with no contents. -/
def descA : TempPathDescriptor :=
  .mk "f" none (some "a.txt") "" "" none "" none none none

/-! ### Claims -/

/-- Claim C1: the claim says constructing a TempDir with a default mode and
no path descriptors creates the root, applies the mode and succeeds.  In
the code, `TempDir.__init__` evaluates the undefined name `paths` (its
parameter is `path_descriptors` and no such local or module global
exists), so every construction — for every environment, mode string and
descriptor argument — raises NameError before `set_access` is reached. -/
theorem c1_tempdir_init_always_raises_nameerror
    (o : OS) (mode : String) (pd : Option (List TempPathDescriptor)) :
    TempDir.init o mode pd = .error (.nameError "name paths is not defined") :=
  rfl

/-- Claim C2: the claim says `make_paths(D, F)` materializes everything
first, applies permissions second, and in particular succeeds for a
read-only directory `D` containing a file `F` with contents `hello`.  On
the code, the run fails: materializing `F` evaluates `desc.subdir.path`,
and `TempPathDescriptor` has no attribute `path`, so `make_paths` raises
AttributeError instead of succeeding. -/
theorem c2_make_paths_dir_file_example_raises :
    TempDir.make_paths sampleOS tdRoot [descD, descF] =
      .error (.attributeError "TempPathDescriptor object has no attribute path") :=
  rfl

/-- Claim C3: the claim says `make_path` materializes every descriptor,
registers it under its absolute and relative keys and returns the absolute
path.  On the code, with the default `apply_permissions=True`, even a
root-level named descriptor fails: after materialization,
`desc.set_access()` reads the non-existent attribute `path` and raises
AttributeError before the registry is touched; a descriptor with a parent
fails even earlier, at `desc.subdir.path`. -/
theorem c3_make_path_raises_before_registration :
    TempDir.make_path sampleOS tdRoot descA true =
      .error (.attributeError "TempPathDescriptor object has no attribute path")
  ∧ TempDir.make_path sampleOS tdRoot descF true =
      .error (.attributeError "TempPathDescriptor object has no attribute path") :=
  ⟨rfl, rfl⟩

/-- Claim C4: the claim says descriptor-level `set_access` raises a usage
error exactly when path or mode is unset, and otherwise applies the mode
to `absolute_path`.  On the code, the guard reads `self.path`, an
attribute `TempPathDescriptor` never defines, so `set_access` raises
AttributeError on every call — also when the path is computable and the
mode is set — and never reaches the module-level `set_access`. -/
theorem c4_descriptor_set_access_always_raises
    (o : OS) (d : TempPathDescriptor) (mode : Option String) :
    TempPathDescriptor.set_access o d mode =
      .error (.attributeError "TempPathDescriptor object has no attribute path") :=
  rfl

/-- Claim C5: on every scope exit — whatever the exception information —
`__exit__` invokes `close`; `close` runs `shutil.rmtree` on the root, so
when deletion succeeds, the root path and every path strictly below it no
longer exist (and nothing else is touched), and when the underlying
deletion fails, the error is not swallowed but returned to the caller. -/
theorem c5_teardown (o : OS) (td : TempDir) (et ev tb : Option String) :
    TempDir.exit_ o td et ev tb = TempDir.close o td
  ∧ (∀ e, o.rmtreeFails td.path = some e → TempDir.close o td = .error e)
  ∧ (o.rmtreeFails td.path = none →
      ∃ o2, TempDir.close o td = .ok o2
        ∧ (∀ q, (q == td.path || strStartsWith q (td.path ++ "/")) = true →
            o2.pathExists q = false ∧ o2.isfile q = false ∧ o2.isdir q = false)
        ∧ (∀ q, (q == td.path || strStartsWith q (td.path ++ "/")) = false →
            o2.pathExists q = o.pathExists q ∧ o2.isfile q = o.isfile q
              ∧ o2.isdir q = o.isdir q)) := by
  refine ⟨rfl, ?_, ?_⟩
  · intro e he
    simp only [TempDir.close, OS.rmtree, he]
  · intro hn
    refine ⟨{ o with
        pathExists := fun q =>
          if q == td.path || strStartsWith q (td.path ++ "/") then false
          else o.pathExists q,
        isdir := fun q =>
          if q == td.path || strStartsWith q (td.path ++ "/") then false
          else o.isdir q,
        isfile := fun q =>
          if q == td.path || strStartsWith q (td.path ++ "/") then false
          else o.isfile q }, ?_, ?_, ?_⟩
    · simp only [TempDir.close, OS.rmtree, hn]
    · intro q hq
      simp only [hq, if_true]
      exact ⟨trivial, trivial, trivial⟩
    · intro q hq
      simp only [hq, if_false]
      exact ⟨rfl, rfl, rfl⟩

/-- Witness for C5 at the concrete host: deletion removes a path below the
root, and a failing rmtree propagates its error. -/
theorem c5_teardown_witness :
    (∃ o2, TempDir.close sampleOS tdRoot = .ok o2
       ∧ o2.pathExists "/tmp/root/d" = false)
  ∧ TempDir.close sampleOSFail tdRoot =
      .error (.ioError EACCES "busy" "/tmp/root") := by
  constructor
  · obtain ⟨o2, h1, h2, _⟩ :=
      (c5_teardown sampleOS tdRoot none none none).2.2 rfl
    exact ⟨o2, h1, (h2 "/tmp/root/d" (by decide)).1⟩
  · exact (c5_teardown sampleOSFail tdRoot none none none).2.1 _ rfl

/-- Counterexample for C6: the claim says construction with non-empty
contents succeeds when the node-type string is `"file"`; the code checks
`path_type != "f"` only, so `"file"` with contents raises ValueError. -/
theorem c6_counterexample_file_string_rejected :
    TempPathDescriptor.init (some "x") none none "" "" "hello" "file" =
      .error (.valueError "contents only valid for files") :=
  rfl

/-- Claim C6 as amended: constructing a TempPathDescriptor with non-empty
contents succeeds exactly when the node-type string is `"f"`; every other
node-type string — including `"file"`, `"d"`, `"dir"` and `"fifo"` —
raises ValueError. -/
theorem c6_contents_require_f
    (name : Option String) (subdir : Option TempPathDescriptor)
    (mode : Option String) (suffix prefix_ : String)
    (contents path_type : String) (h : contents ≠ "") :
    (pyResultIsOk
        (TempPathDescriptor.init name subdir mode suffix prefix_ contents
          path_type) = true ↔ path_type = "f")
  ∧ (path_type ≠ "f" →
      TempPathDescriptor.init name subdir mode suffix prefix_ contents
          path_type = .error (.valueError "contents only valid for files")) := by
  constructor
  · constructor
    · intro hok
      by_contra hne
      have hcond : (contents != "" && path_type != "f") = true := by
        simp only [Bool.and_eq_true, bne_iff_ne]
        exact ⟨h, hne⟩
      simp only [TempPathDescriptor.init, hcond, if_true, pyResultIsOk] at hok
      exact Bool.false_ne_true hok
    · intro hp
      subst hp
      simp [TempPathDescriptor.init, pyResultIsOk]
  · intro hne
    have hcond : (contents != "" && path_type != "f") = true := by
      simp only [Bool.and_eq_true, bne_iff_ne]
      exact ⟨h, hne⟩
    simp only [TempPathDescriptor.init, hcond, if_true]

/-- Witness for C6: with contents `hello`, node type `f` constructs and
node type `fifo` raises. -/
theorem c6_contents_require_f_witness :
    pyResultIsOk
        (TempPathDescriptor.init (some "x") none none "" "" "hello" "f") = true
  ∧ TempPathDescriptor.init (some "x") none none "" "" "hello" "fifo" =
      .error (.valueError "contents only valid for files") :=
  ⟨((c6_contents_require_f (some "x") none none "" "" "hello" "f"
        (by decide)).1).mpr rfl,
   (c6_contents_require_f (some "x") none none "" "" "hello" "fifo"
        (by decide)).2 (by decide)⟩

/-- Claim C7: on the output placeholder, `check_access` accepts exactly the
read and write constants; on the error placeholder, exactly the write
constant; every other access value raises EACCES with the placeholder as
the offending path. -/
theorem c7_sentinel_access :
    (∀ o : OS,
        check_access o STDOUT (.int R_OK) = .ok ()
      ∧ check_access o STDOUT (.int W_OK) = .ok ()
      ∧ check_access o STDERR (.int W_OK) = .ok ())
  ∧ (∀ (o : OS) (a : Nat), a ≠ R_OK → a ≠ W_OK →
      check_access o STDOUT (.int a) =
        .error (.ioError EACCES "STDOUT access must be r or w" STDOUT))
  ∧ (∀ (o : OS) (a : Nat), a ≠ W_OK →
      check_access o STDERR (.int a) =
        .error (.ioError EACCES "STDERR access must be w" STDERR)) := by
  refine ⟨fun o => ⟨rfl, rfl, rfl⟩, ?_, ?_⟩
  · intro o a h1 h2
    simp [check_access, STDOUT, STDERR, h1, h2]
  · intro o a h1
    simp [check_access, STDOUT, STDERR, h1]

/-- Witness for C7: execute on the output placeholder and read on the error
placeholder are both denied with EACCES. -/
theorem c7_sentinel_access_witness :
    check_access sampleOS STDOUT (.int X_OK) =
      .error (.ioError EACCES "STDOUT access must be r or w" STDOUT)
  ∧ check_access sampleOS STDERR (.int R_OK) =
      .error (.ioError EACCES "STDERR access must be w" STDERR) :=
  ⟨c7_sentinel_access.2.1 sampleOS X_OK (by decide) (by decide),
   c7_sentinel_access.2.2 sampleOS R_OK (by decide)⟩

/-- The only failure `get_access` produces is a ValueError. -/
theorem get_access_error (s : String) (e : PyErr)
    (h : get_access s = .error e) : ∃ m, e = .valueError m := by
  unfold get_access at h
  rcases hf : ACCESS.find? (fun ai => s.data.contains ai.1) with _ | ai
  · rw [hf] at h
    injection h with h2
    exact ⟨_, h2.symm⟩
  · rw [hf] at h
    cases h

/-- The failures of `check_access` are a ValueError (from `get_access`) or
an EACCES error. -/
theorem check_access_error_kinds (o : OS) (p : String) (a : AccessArg)
    (e : PyErr) (h : check_access o p a = .error e) :
    (∃ m, e = .valueError m) ∨ (∃ m f, e = .ioError EACCES m f) := by
  cases a with
  | str s =>
    rcases hg : get_access s with e1 | n
    · simp only [check_access, hg] at h
      injection h with h2
      exact Or.inl (by
        obtain ⟨m, hm⟩ := get_access_error s e1 hg
        exact ⟨m, h2 ▸ hm⟩)
    · simp only [check_access, hg] at h
      repeat' split at h
      all_goals try cases h
      all_goals exact Or.inr ⟨_, _, rfl⟩
  | int n =>
    simp only [check_access] at h
    repeat' split at h
    all_goals try cases h
    all_goals exact Or.inr ⟨_, _, rfl⟩

/-- The only failure of `resolve_path` is an ENOENT error. -/
theorem resolve_path_error (o : OS) (p : String) (par : Option String)
    (e : PyErr) (h : resolve_path o p par = .error e) :
    ∃ m f, e = .ioError ENOENT m f := by
  unfold resolve_path at h
  simp only [] at h
  repeat' split at h
  all_goals try cases h
  all_goals exact ⟨_, _, rfl⟩

/-- The failures of the type check of `check_path` are EISDIR and
ENOTDIR. -/
theorem type_check_error_kinds (o : OS) (p : String) (ptype : Option String)
    (e : PyErr) (h : check_path_type_check o p ptype = .error e) :
    ∃ m f, e = .ioError EISDIR m f ∨ e = .ioError ENOTDIR m f := by
  unfold check_path_type_check at h
  repeat' split at h
  all_goals try cases h
  all_goals first
    | exact ⟨_, _, Or.inl rfl⟩
    | exact ⟨_, _, Or.inr rfl⟩

/-- The failures of `check_path` are exactly the environmental IO errors
(ENOENT from resolution, EISDIR and ENOTDIR from the type check, EACCES
from the access check) and ValueError from an invalid access string. -/
theorem check_path_error_kinds (o : OS) (path : String)
    (ptype : Option String) (access : Option AccessArg) (e : PyErr)
    (h : check_path o path ptype access = .error e) :
    (∃ m f, e = .ioError ENOENT m f ∨ e = .ioError EISDIR m f
      ∨ e = .ioError ENOTDIR m f ∨ e = .ioError EACCES m f)
    ∨ (∃ m, e = .valueError m) := by
  unfold check_path at h
  rcases hr : resolve_path o path none with e1 | p
  · simp only [hr] at h
    injection h with h2
    obtain ⟨m, f, hm⟩ := resolve_path_error o path none e1 hr
    exact Or.inl ⟨m, f, Or.inl (h2 ▸ hm)⟩
  · simp only [hr] at h
    rcases ht : check_path_type_check o p ptype with e1 | u
    · simp only [ht] at h
      injection h with h2
      obtain ⟨m, f, hm⟩ := type_check_error_kinds o p ptype e1 ht
      refine Or.inl ⟨m, f, ?_⟩
      rcases hm with hm | hm
      · exact Or.inr (Or.inl (h2 ▸ hm))
      · exact Or.inr (Or.inr (Or.inl (h2 ▸ hm)))
    · simp only [ht] at h
      cases access with
      | none => cases h
      | some a =>
        rcases hca : check_access o p a with e2 | u2
        · simp only [hca] at h
          injection h with h2
          rcases check_access_error_kinds o p a e2 hca with ⟨m, hm⟩ | ⟨m, f, hm⟩
          · exact Or.inr ⟨m, h2 ▸ hm⟩
          · exact Or.inl ⟨m, f, Or.inr (Or.inr (Or.inr (h2 ▸ hm)))⟩
        · simp only [hca] at h
          cases h

/-- Claim C8: `safe_check_path` returns the resolved path on success,
converts every IOError of `check_path` — which can only be NotFound
(ENOENT), WrongType (EISDIR/ENOTDIR) or PermissionDenied (EACCES) — to an
absent result, and still propagates a ValueError (invalid access mode
string) unchanged. -/
theorem c8_safe_check_path (o : OS) (path : String) (ptype : Option String)
    (access : Option AccessArg) :
    (∀ p, check_path o path ptype access = .ok p →
        safe_check_path o path ptype access = .ok (some p))
  ∧ (∀ n m f, check_path o path ptype access = .error (.ioError n m f) →
        safe_check_path o path ptype access = .ok none)
  ∧ (∀ m, check_path o path ptype access = .error (.valueError m) →
        safe_check_path o path ptype access = .error (.valueError m))
  ∧ (∀ e, check_path o path ptype access = .error e →
        (∃ m f, e = .ioError ENOENT m f ∨ e = .ioError EISDIR m f
          ∨ e = .ioError ENOTDIR m f ∨ e = .ioError EACCES m f)
        ∨ (∃ m, e = .valueError m)) := by
  refine ⟨?_, ?_, ?_, fun e h => check_path_error_kinds o path ptype access e h⟩
  · intro p h
    simp only [safe_check_path, h]
  · intro n m f h
    simp only [safe_check_path, h]
  · intro m h
    simp only [safe_check_path, h]

/-- Witness for C8 at the concrete host: a successful check returns the
resolved path, a missing path gives an absent result, and an access-mode
string with no recognized character propagates its ValueError. -/
theorem c8_safe_check_path_witness :
    safe_check_path sampleOS "x" (some "f") none = .ok (some "/current/dir/x")
  ∧ safe_check_path sampleOS "missing" none none = .ok none
  ∧ safe_check_path sampleOS "x" none (some (.str "b")) =
      .error (.valueError "b does not contain a valid access mode") :=
  ⟨(c8_safe_check_path sampleOS "x" (some "f") none).1 "/current/dir/x" rfl,
   (c8_safe_check_path sampleOS "missing" none none).2.1 ENOENT
     "/current/dir/missing does not exist" "/current/dir/missing" rfl,
   (c8_safe_check_path sampleOS "x" none (some (.str "b"))).2.2.1
     "b does not contain a valid access mode" rfl⟩

/-- Splitting a character list never yields an empty list of groups. -/
theorem pySplitChars_ne_nil (sep : Char) (cs : List Char) :
    pySplitChars sep cs ≠ [] := by
  cases cs with
  | nil => simp [pySplitChars]
  | cons c cr =>
    simp only [pySplitChars]
    rcases h : pySplitChars sep cr with _ | ⟨g, gs⟩
    · simp [h]
    · simp only []
      split <;> simp

/-- Splitting on a separator that does not occur returns the whole list as
the single group. -/
theorem pySplitChars_no_sep (sep : Char) (cs : List Char) (h : sep ∉ cs) :
    pySplitChars sep cs = [cs] := by
  induction cs with
  | nil => rfl
  | cons c cr ih =>
    have hc : (c == sep) = false := by
      simp only [beq_eq_false_iff_ne]
      intro e
      exact h (by simp [e])
    have hr := ih (fun hm => h (List.mem_cons_of_mem c hm))
    simp [pySplitChars, hr, hc]

/-- Claim C9: the spec examples for `split_path` on `foo.tar.gz` with and
without separators kept and on an extension-free name, plus the general
shape: every result has length at least two, starts with the parent
directory of the (optionally resolved) path, continues with the first
dot-group of the base name, and is exactly a pair when the base name
contains no extension separator. -/
theorem c9_split_path :
    split_path sampleOS "foo.tar.gz" true true =
      ["/current/dir", "foo", ".tar", ".gz"]
  ∧ split_path sampleOS "foo.tar.gz" false true =
      ["/current/dir", "foo", "tar", "gz"]
  ∧ split_path sampleOS "README" true true = ["/current/dir", "README"]
  ∧ (∀ (o : OS) (p : String) (keep res : Bool),
        2 ≤ (split_path o p keep res).length
      ∧ (split_path o p keep res).headI =
          pyDirname (if res then abspath o p else p)
      ∧ (split_path o p keep res).get? 1 =
          some (pySplit (pyBasename (if res then abspath o p else p)) '.').headI
      ∧ ('.' ∉ (pyBasename (if res then abspath o p else p)).data →
            (split_path o p keep res).length = 2)) := by
  refine ⟨by decide, by decide, by decide, ?_⟩
  intro o p keep res
  refine ⟨?_, ?_, ?_, ?_⟩
  · simp only [split_path, List.length_cons]
    omega
  · cases res <;> simp [split_path]
  · cases res <;> simp [split_path]
  · intro hns
    have hsp := pySplitChars_no_sep '.' _ hns
    simp [split_path, pySplit, hsp]

/-- Witness for C9: an extension-free name yields exactly a pair. -/
theorem c9_split_path_witness :
    (split_path sampleOS "README" false true).length = 2 :=
  (c9_split_path.2.2.2 sampleOS "README" false true).2.2.2 (by decide)

/-- The OR of the permission bits of a mode string, folded in source
order. -/
def modeFlag (mode : String) : Nat :=
  mode.data.foldl (fun acc c => acc ||| ((accessBits c).getD (0, 0)).2) 0

/-- When every character is a recognized mode character, the validation loop
returns the OR of the permission bits. -/
theorem set_access_loop_ok (cs : List Char)
    (h : ∀ c ∈ cs, (accessBits c).isSome = true) :
    ∀ acc, set_access_loop cs acc =
      .ok (cs.foldl (fun a c => a ||| ((accessBits c).getD (0, 0)).2) acc) := by
  induction cs with
  | nil => intro acc; rfl
  | cons c cr ih =>
    intro acc
    have hc := h c (List.mem_cons_self c cr)
    rcases hb : accessBits c with _ | bits
    · rw [hb] at hc
      cases hc
    · simp only [set_access_loop, hb, List.foldl_cons]
      rw [ih (fun x hx => h x (List.mem_cons_of_mem c hx)) (acc ||| bits.2)]
      simp [hb]

/-- When some character is unrecognized, the validation loop raises a
ValueError (whatever has been accumulated so far). -/
theorem set_access_loop_err (cs : List Char)
    (h : ¬ ∀ c ∈ cs, (accessBits c).isSome = true) :
    ∀ acc, ∃ m, set_access_loop cs acc = .error (.valueError m) := by
  induction cs with
  | nil => exact absurd (by simp) h
  | cons c cr ih =>
    intro acc
    rcases hb : accessBits c with _ | bits
    · exact ⟨"Invalid mode character " ++ String.mk [c],
        by simp only [set_access_loop, hb]⟩
    · have hrest : ¬ ∀ x ∈ cr, (accessBits x).isSome = true := by
        intro hall
        apply h
        intro x hx
        rcases List.mem_cons.mp hx with rfl | hx2
        · simp [hb]
        · exact hall x hx2
      obtain ⟨m, hm⟩ := ih hrest (acc ||| bits.2)
      exact ⟨m, by simp only [set_access_loop, hb]; exact hm⟩

/-- Claim C10: module-level `set_access` raises ValueError whenever the mode
string holds a character outside r/w/a/x — for every environment,
including those where the path does not even exist, showing the chmod is
not attempted before validation finishes — and otherwise chmods the path
to the OR of the corresponding permission bits and returns that integer. -/
theorem c10_module_set_access (o : OS) (path mode : String) :
    (¬ (∀ c ∈ mode.data, (accessBits c).isSome = true) →
        ∃ m, set_access o path mode = .error (.valueError m))
  ∧ ((∀ c ∈ mode.data, (accessBits c).isSome = true) →
      o.pathExists path = true →
        set_access o path mode =
          .ok ({ o with
                  perms := fun q => if q == path then modeFlag mode
                    else o.perms q },
               modeFlag mode)) := by
  constructor
  · intro h
    obtain ⟨m, hm⟩ := set_access_loop_err mode.data h 0
    exact ⟨m, by simp only [set_access, hm]⟩
  · intro h hex
    have hl := set_access_loop_ok mode.data h 0
    simp only [set_access, hl, OS.chmod, hex, if_true, modeFlag]

/-- Witness for C10: `rz` fails validation even though the path exists;
`rwx` chmods the existing file to 0o700 = 448 and returns it. -/
theorem c10_module_set_access_witness :
    (∃ m, set_access sampleOS "/current/dir/x" "rz" =
        .error (.valueError m))
  ∧ set_access sampleOS "/current/dir/x" "rwx" =
      .ok ({ sampleOS with
              perms := fun q => if q == "/current/dir/x" then modeFlag "rwx"
                else sampleOS.perms q },
           modeFlag "rwx")
  ∧ modeFlag "rwx" = 448 :=
  ⟨(c10_module_set_access sampleOS "/current/dir/x" "rz").1 (by decide),
   (c10_module_set_access sampleOS "/current/dir/x" "rwx").2
     (by decide) (by decide),
   by decide⟩

end XphylePaths
